import Mathlib

/-!
Shallow embedding of the Billing event check-in gate (FastAPI app in
`app/main.py` with services in `app/services/`).  Python dictionaries are
modelled as association lists with string keys, the Google-Sheets ledger as a
list of rows (each a list of cell strings, gspread's 1-based columns becoming
0-based indices), wall-clock instants and second counts as rationals, and
side effects (messages, sleeps, task spawns) as an explicit trace of
`Effect`s.  Each definition mirrors one Python function.
-/

namespace Billing

/-- One decrypted token payload: the claims dictionary minted by
`process_entry_task` and consumed by `verify_entry` (`app/main.py`). -/
structure Claims where
  transaction_id : String
  name : String
  phone : String
  duration : Int
  amount : Int
  plan : String
  secure_key : String
deriving Repr, DecidableEq

/-- One value of the `active_sessions` dict (`app/main.py`): session timing
plus the optional restore credential.  Times are seconds on a rational
wall clock. -/
structure Session where
  name : String
  phone : String
  transaction_id : String
  duration : Int
  start_time : ℚ
  end_time : ℚ
  restore_key : Option String
deriving Repr, DecidableEq

/-- Dictionary lookup on an association list, mirroring `d[k]` / `k in d`. -/
def lookupKey {α : Type} : List (String × α) → String → Option α
  | [], _ => none
  | (k', v) :: rest, k => if k' = k then some v else lookupKey rest k

/-- Dictionary deletion `del d[k]` (drops every pair with that key; on the
unique-key lists produced by the app this is exactly one pair). -/
def removeKey {α : Type} (l : List (String × α)) (k : String) : List (String × α) :=
  l.filter (fun p => p.1 ≠ k)

/-- Dictionary assignment `d[k] = v` modelled so that `lookupKey` sees the
new binding and every other key is untouched. -/
def insertKey {α : Type} (l : List (String × α)) (k : String) (v : α) : List (String × α) :=
  (k, v) :: removeKey l k

/-- Python `str.strip()`: drop leading and trailing whitespace. -/
def pyStrip (s : String) : String :=
  String.mk (((s.toList.dropWhile Char.isWhitespace).reverse.dropWhile
    Char.isWhitespace).reverse)

/-- Python `str.lower()` (ASCII case folding, which covers every string the
app compares). -/
def pyLower (s : String) : String :=
  String.mk (s.toList.map Char.toLower)

/-- The process-wide mutable state of `app/main.py`: the two in-memory dicts,
the ledger worksheet, and the durable snapshots written by `save_sessions` /
`save_pending_keys` (`sessions.json`, `pending_keys.json`). -/
structure ServerState where
  active_sessions : List (String × Session)
  pending_keys : List (String × String)
  sheet : List (List String)
  persisted_sessions : List (String × Session)
  persisted_pending : List (String × String)
deriving Repr, DecidableEq

/-- Observable side effects of the embedded handlers, in program order. -/
inductive Effect
  | sendMessage (phone msg : String) (ok : Bool)
  | spawnTimer (phone : String) (duration : Int) (tid : String)
      (is_resume : Bool) (resume_seconds : Option ℚ)
  | sleep (seconds : ℚ)
  | removedSession (tid : String)
  | logError
  | persistLastReport (t : ℚ)
  | emitHourlyReport
deriving Repr, DecidableEq

/-! ### Ledger (GoogleSheetService, `app/services/google_sheets.py`)

`worksheet.find(tid)` scans cells row-major and returns the first cell whose
value equals `tid`; we model it as the index of the first row containing such
a cell.  `update_cell(row, c, v)` writes 1-based column `c` (index `c-1`),
extending the row when needed; `cell(row, c).value` reads 1-based column `c`
and yields `None` for an empty or missing cell. -/

/-- Index of the first row holding a cell equal to `tid` (`worksheet.find`). -/
def sheetFindRowIdx (sheet : List (List String)) (tid : String) : Option Nat :=
  sheet.findIdx? (fun row => row.contains tid)

/-- Write cell at 0-based index `i` of a row, padding with empty cells as
gspread does when the row is shorter. -/
def setCell (row : List String) (i : Nat) (v : String) : List String :=
  if i < row.length then row.set i v
  else row ++ List.replicate (i - row.length) "" ++ [v]

/-- Read cell at 0-based index `i`; empty and missing cells read as `none`. -/
def getCell (row : List String) (i : Nat) : Option String :=
  match row.get? i with
  | some v => if v = "" then none else some v
  | none => none

/-- `GoogleSheetService.update_entry_status`: find the row of `tid` and write
`new_status` into column 7 (0-based index 6); returns whether a row was
found. -/
def update_entry_status (sheet : List (List String)) (tid new_status : String) :
    List (List String) × Bool :=
  match sheetFindRowIdx sheet tid with
  | some i =>
      match sheet.get? i with
      | some row => (sheet.set i (setCell row 6 new_status), true)
      | none => (sheet, false)
  | none => (sheet, false)

/-- `GoogleSheetService.get_entry_status`: find the row of `tid` and read
column 5 (0-based index 4); `none` when the row or cell is absent. -/
def get_entry_status (sheet : List (List String)) (tid : String) : Option String :=
  match sheetFindRowIdx sheet tid with
  | some i =>
      match sheet.get? i with
      | some row => getCell row 4
      | none => none
  | none => none

/-! ### Verification Gate (`verify_entry`, `app/main.py`) -/

/-- The distinct responses `verify_entry` can render. -/
inductive VerifyOutcome
  | invalidToken
  | checkRestore (transaction_id name phone : String) (duration : Int) (plan : String)
  | alreadyUsed
  | notFoundOrExpired
  | securityCheckFailed
  | success (name transaction_id : String) (duration : Int) (plan phone : String)
deriving Repr, DecidableEq

/-- The admission notice sent on the success path of `verify_entry`. -/
def welcomeMsg (name : String) (duration : Int) : String :=
  "Welcome " ++ name ++ "! Your entry is confirmed. Please ask the admin to start your "
    ++ toString duration ++ " mins session."

/-- `verify_entry` (`app/main.py`): the token argument is the decryption
result (`none` = `crypto_service.decrypt` raised).  Checks, in source order:
decryption, active session (restore), pending key presence (falling back to
the ledger status), key match, then the success path which marks the ledger
entry "In" and sends the admission notice. -/
def verify_entry (s : ServerState) (tok : Option Claims) (sendOk : Bool) :
    VerifyOutcome × ServerState × List Effect :=
  match tok with
  | none => (.invalidToken, s, [])
  | some c =>
    if (lookupKey s.active_sessions c.transaction_id).isSome then
      (.checkRestore c.transaction_id c.name c.phone c.duration c.plan, s, [])
    else
      match lookupKey s.pending_keys c.transaction_id with
      | none =>
          match get_entry_status s.sheet c.transaction_id with
          | some st =>
              if pyLower (pyStrip st) = "in" then (.alreadyUsed, s, [])
              else (.notFoundOrExpired, s, [])
          | none => (.notFoundOrExpired, s, [])
      | some k =>
          if k ≠ c.secure_key then (.securityCheckFailed, s, [])
          else
            let sheet2 := (update_entry_status s.sheet c.transaction_id "In").1
            (.success c.name c.transaction_id c.duration c.plan c.phone,
             { s with sheet := sheet2 },
             [.sendMessage c.phone (welcomeMsg c.name c.duration) sendOk])

/-! ### Session start (`start_timer`, `app/main.py`) -/

/-- Accumulate a non-empty all-digit character list into a number. -/
def digitsVal : List Char → Nat → Option Nat
  | [], acc => some acc
  | c :: rest, acc =>
      if c.isDigit then digitsVal rest (acc * 10 + (c.toNat - 48)) else none

/-- Python `int(s)`: strip surrounding whitespace, then an optional sign
followed by at least one digit; anything else raises `ValueError` (here
`none`). -/
def parsePyInt (st : String) : Option Int :=
  match (pyStrip st).toList with
  | [] => none
  | '-' :: rest =>
      match rest with
      | [] => none
      | _ => (digitsVal rest 0).map (fun n => -(n : Int))
  | '+' :: rest =>
      match rest with
      | [] => none
      | _ => (digitsVal rest 0).map (fun n => (n : Int))
  | l => (digitsVal l 0).map (fun n => (n : Int))

/-- The JSON body returned by `/start_timer`. -/
structure TimerResponse where
  statusCode : Nat
  end_time : Option ℚ
  duration : Option Int
  restore_key : Option String
deriving Repr, DecidableEq

/-- `start_timer` (`app/main.py`): reject with 400 when `name` or
`transaction_id` is missing; otherwise fall back to 15 minutes on an
unparsable duration, store and persist the session, consume (and persist)
the pending key if present, attach the freshly minted restore key, persist
again, and spawn the fresh session timer.  `now` is `datetime.now()` in
seconds; `rk` is the `secrets.token_urlsafe(12)` value. -/
def start_timer (s : ServerState) (phone dur : String) (name tid : Option String)
    (now : ℚ) (rk : String) : TimerResponse × ServerState × List Effect :=
  match name, tid with
  | some n, some t =>
      let d : Int := (parsePyInt dur).getD 15
      let endT : ℚ := now + d * 60
      let sess : Session := ⟨n, phone, t, d, now, endT, none⟩
      let a1 := insertKey s.active_sessions t sess
      let s1 := { s with active_sessions := a1, persisted_sessions := a1 }
      let s2 :=
        if (lookupKey s1.pending_keys t).isSome then
          let p := removeKey s1.pending_keys t
          { s1 with pending_keys := p, persisted_pending := p }
        else s1
      let a2 := insertKey s2.active_sessions t { sess with restore_key := some rk }
      let s3 := { s2 with active_sessions := a2, persisted_sessions := a2 }
      (⟨200, some endT, some d, some rk⟩, s3, [.spawnTimer phone d t false none])
  | _, _ => (⟨400, none, none, none⟩, s, [])

/-! ### Session Timer (`session_timer_task`, `app/main.py`)

`whatsapp_service.send_message` (`app/services/whatsapp.py`) catches every
exception of its own body and returns a `bool`; the timer ignores that
return value, so delivery outcomes enter the model only as the `ok` flags
recorded in the trace. -/

/-- "Your {d} minutes session has STARTED now. Have fun!" -/
def startMsg (d : Int) : String :=
  "Your " ++ toString d ++ " minutes session has STARTED now. Have fun!"

/-- "Warning: You have {w} minutes remaining in your session." -/
def warnMsg (w : Int) : String :=
  "Warning: You have " ++ toString w ++ " minutes remaining in your session."

/-- "Your session time of {d} minutes has ended. Please proceed to exit." -/
def endMsg (d : Int) : String :=
  "Your session time of " ++ toString d ++ " minutes has ended. Please proceed to exit."

/-- The cleanup tail of `session_timer_task`: removing the session (and
persisting) happens only when the id is still present. -/
def removalEvents (s : ServerState) (tid : String) : List Effect :=
  if (lookupKey s.active_sessions tid).isSome then [.removedSession tid] else []

/-- State after the cleanup tail of `session_timer_task`: delete the entry
and persist when present, untouched otherwise. -/
def removalState (s : ServerState) (tid : String) : ServerState :=
  if (lookupKey s.active_sessions tid).isSome then
    let a := removeKey s.active_sessions tid
    { s with active_sessions := a, persisted_sessions := a }
  else s

/-- The start-notice prefix of `session_timer_task`: sent only when the
timer is not a resume. -/
def timerStartEvents (phone : String) (duration : Int) (is_resume : Bool)
    (startOk : Bool) : List Effect :=
  if is_resume then [] else [.sendMessage phone (startMsg duration) startOk]

/-- The sleeping part of `session_timer_task`: sleep to the warning offset
`(duration − W)·60` (adjusted by the already-elapsed time on a resume), send
the warning, sleep the rest — or, past the warning offset, just sleep the
remaining time. -/
def timerSleepEvents (phone : String) (duration W : Int) (is_resume : Bool)
    (resume_seconds : Option ℚ) (warnOk : Bool) : List Effect :=
  let total : ℚ := duration * 60
  let warning : ℚ := (duration - W) * 60
  let sleep_until_warning : ℚ :=
    match is_resume, resume_seconds with
    | true, some r => warning - (total - r)
    | _, _ => warning
  if 0 < sleep_until_warning then
    [.sleep sleep_until_warning, .sendMessage phone (warnMsg W) warnOk,
     .sleep (total - warning)]
  else
    let remaining : ℚ :=
      match is_resume, resume_seconds with
      | true, some r => r
      | _, _ => total
    if 0 < remaining then [.sleep remaining] else []

/-- `session_timer_task` (`app/main.py`): optional start notice, the sleep
and warning schedule, then the end notice followed by the guarded removal.
`W` is `settings.WARNING_BUFFER_MINUTES`; the `Ok` flags are the delivery
results of the three `send_message` calls. -/
def session_timer_task (s : ServerState) (phone : String) (duration : Int)
    (tid : String) (is_resume : Bool) (resume_seconds : Option ℚ) (W : Int)
    (startOk warnOk endOk : Bool) : List Effect × ServerState :=
  (timerStartEvents phone duration is_resume startOk
     ++ timerSleepEvents phone duration W is_resume resume_seconds warnOk
     ++ [.sendMessage phone (endMsg duration) endOk]
     ++ removalEvents s tid,
   removalState s tid)

/-! ### Startup recovery (`startup_event`, `app/main.py`) -/

/-- The expired-session cleanup in `startup_event`: keep sessions with
`end_time > now`, and re-persist exactly when the count dropped. -/
def startup_cleanup (sessions : List (String × Session)) (now : ℚ) :
    List (String × Session) × Bool :=
  let kept := sessions.filter (fun p => now < p.2.end_time)
  (kept, decide (kept.length < sessions.length))

/-- The timer-restoration loop in `startup_event`: one resumed
`session_timer_task` per surviving future session, with
`resume_seconds = end_time − now`. -/
def startup_resume (kept : List (String × Session)) (now : ℚ) : List Effect :=
  kept.filterMap (fun p =>
    if now < p.2.end_time then
      some (.spawnTimer p.2.phone p.2.duration p.1 true (some (p.2.end_time - now)))
    else none)

/-- The session-recovery part of `startup_event`: cleanup at `now1`, then the
restoration loop's second `datetime.now()` reading `now2`.  Returns the
surviving store, whether it was re-persisted, and the spawned-timer trace. -/
def startup_event (sessions : List (String × Session)) (now1 now2 : ℚ) :
    List (String × Session) × Bool × List Effect :=
  let (kept, saved) := startup_cleanup sessions now1
  (kept, saved, startup_resume kept now2)

/-! ### Recurring reporting (`hourly_stats_task`, `app/main.py`) -/

/-- The persisted `last_hourly_report` as one loop iteration sees it:
absent, present but failing `datetime.fromisoformat` (which raises into the
iteration's `except`), or parsed to an instant. -/
inductive LastReport
  | unset
  | corrupt
  | at (t : ℚ)
deriving Repr, DecidableEq

/-- One iteration of the `while True` body of `hourly_stats_task`.  `now` is
the iteration's first `datetime.now()`, `now2` the one taken after the report
is sent, and `statsOk` whether the ledger-aggregation step succeeded (a
failure there raises into the `except`, which logs and backs off 60 s; the
loop then continues with the returned state).  The function is total: no
iteration terminates the task. -/
def hourly_step (last : LastReport) (now now2 : ℚ) (statsOk : Bool) :
    List Effect × LastReport :=
  match last with
  | .corrupt => ([.logError, .sleep 60], .corrupt)
  | .unset =>
      let evs1 : List Effect := [.persistLastReport now, .sleep 3600]
      if statsOk then
        (evs1 ++ [.emitHourlyReport, .persistLastReport now2, .sleep 1], .at now2)
      else (evs1 ++ [.logError, .sleep 60], .at now)
  | .at t =>
      let wait : ℚ := t + 3600 - now
      let evs1 : List Effect := if 0 < wait then [.sleep wait] else []
      if statsOk then
        (evs1 ++ [.emitHourlyReport, .persistLastReport now2, .sleep 1], .at now2)
      else (evs1 ++ [.logError, .sleep 60], .at t)

/-! ### Restore (`verify_restore`, `app/main.py`) -/

/-- The JSON body returned by `/api/verify_restore`. -/
structure RestoreResponse where
  statusCode : Nat
  start_time : Option ℚ
  end_time : Option ℚ
  duration : Option Int
deriving Repr, DecidableEq

/-- `verify_restore` (`app/main.py`): return the session snapshot when the
transaction has an active session whose stored `restore_key` equals the
supplied one, and a 403 denial otherwise; no store is touched. -/
def verify_restore (s : ServerState) (tid rk : Option String) :
    RestoreResponse × ServerState :=
  match tid with
  | none => (⟨403, none, none, none⟩, s)
  | some t =>
      match lookupKey s.active_sessions t with
      | none => (⟨403, none, none, none⟩, s)
      | some sess =>
          if sess.restore_key = rk then
            (⟨200, some sess.start_time, some sess.end_time, some sess.duration⟩, s)
          else (⟨403, none, none, none⟩, s)

/-! ### Token Codec (`CryptoService`, `app/services/crypto.py`)

`encrypt` is `urlsafe_b64encode ∘ Fernet.encrypt ∘ json.dumps` and `decrypt`
is the reverse pipeline with every failure collapsed to the single
`ValueError("Invalid token")`.  The three library layers (json, Fernet,
base64) are external; they enter as the fields of a `Codec`, and their
round-trip contracts as hypotheses of the theorem. -/

structure Codec where
  serialize : Claims → String
  deserialize : String → Option Claims
  fernetEnc : String → String
  fernetDec : String → Option String
  b64encode : String → String
  b64decode : String → Option String

/-- `CryptoService.encrypt`. -/
def Codec.encrypt (c : Codec) (d : Claims) : String :=
  c.b64encode (c.fernetEnc (c.serialize d))

/-- `CryptoService.decrypt`: any layer failing raises
`ValueError("Invalid token")`. -/
def Codec.decrypt (c : Codec) (token : String) : Except String Claims :=
  match c.b64decode token with
  | none => .error "Invalid token"
  | some eb =>
      match c.fernetDec eb with
      | none => .error "Invalid token"
      | some db =>
          match c.deserialize db with
          | none => .error "Invalid token"
          | some d => .ok d

/-! ### Dictionary lemmas -/

theorem removeKey_cons {α : Type} (p : String × α) (rest : List (String × α))
    (k : String) :
    removeKey (p :: rest) k =
      if p.1 = k then removeKey rest k else p :: removeKey rest k := by
  by_cases h : p.1 = k <;> simp [removeKey, List.filter_cons, h]

theorem lookupKey_removeKey_self {α : Type} (l : List (String × α)) (k : String) :
    lookupKey (removeKey l k) k = none := by
  induction l with
  | nil => rfl
  | cons p rest ih =>
      rw [removeKey_cons]
      by_cases h : p.1 = k
      · simpa [h] using ih
      · simpa [lookupKey, h] using ih

theorem lookupKey_removeKey_ne {α : Type} (l : List (String × α)) (k k' : String)
    (h : k' ≠ k) : lookupKey (removeKey l k) k' = lookupKey l k' := by
  induction l with
  | nil => rfl
  | cons p rest ih =>
      rw [removeKey_cons]
      by_cases hp : p.1 = k
      · rw [if_pos hp, ih]
        have hpk' : ¬p.1 = k' := by rw [hp]; exact fun hk => h hk.symm
        simp only [lookupKey, if_neg hpk']
      · rw [if_neg hp]
        simp only [lookupKey, ih]

theorem lookupKey_insertKey_self {α : Type} (l : List (String × α)) (k : String)
    (v : α) : lookupKey (insertKey l k v) k = some v := by
  simp [insertKey, lookupKey]

theorem lookupKey_insertKey_ne {α : Type} (l : List (String × α)) (k k' : String)
    (v : α) (h : k' ≠ k) :
    lookupKey (insertKey l k v) k' = lookupKey l k' := by
  have : k ≠ k' := fun hk => h hk.symm
  simp [insertKey, lookupKey, this, lookupKey_removeKey_ne l k k' h]

/-! ### C1 -/

/-- C1: for a token that decrypts, when an active session exists for the
decrypted transaction id, `verify_entry` returns the `check_restore` outcome,
leaves the state untouched (no ledger write, no session creation), emits no
effect, and the outcome is independent of the pending-key store — so the
active-session check takes priority over the pending-key check. -/
theorem C1_active_session_check_first (s : ServerState) (c : Claims)
    (sess : Session) (sendOk : Bool)
    (h : lookupKey s.active_sessions c.transaction_id = some sess) :
    (verify_entry s (some c) sendOk).1
        = .checkRestore c.transaction_id c.name c.phone c.duration c.plan ∧
    (verify_entry s (some c) sendOk).2.1 = s ∧
    (verify_entry s (some c) sendOk).2.2 = [] ∧
    (∀ p, (verify_entry { s with pending_keys := p } (some c) sendOk).1
        = .checkRestore c.transaction_id c.name c.phone c.duration c.plan) := by
  refine ⟨?_, ?_, ?_, ?_⟩ <;> simp [verify_entry, h]

/-- A session and a claims record used as concrete inputs below. -/
def sessA : Session := ⟨"Alice", "919876543210", "T1", 15, 0, 900, some "rk1"⟩

def claimsT1 : Claims := ⟨"T1", "Alice", "919876543210", 15, 50, "Premium", "00000000000001"⟩

def stateC1 : ServerState :=
  ⟨[("T1", sessA)], [("T1", "00000000000001")], [], [("T1", sessA)],
   [("T1", "00000000000001")]⟩

theorem C1_active_session_check_first_witness :
    lookupKey stateC1.active_sessions claimsT1.transaction_id = some sessA ∧
    (verify_entry stateC1 (some claimsT1) true).1
      = .checkRestore "T1" "Alice" "919876543210" 15 "Premium" :=
  ⟨by decide,
   (C1_active_session_check_first stateC1 claimsT1 sessA true (by decide)).1⟩

/-! ### C2

`process_entry_task` appends ledger rows as
`[Timestamp, Name, Phone, Transaction ID, Amount, Duration, Status, Payment
Mode, Plan]`, so the status lives in column 7 — the column
`update_entry_status` writes.  `get_entry_status` reads column 5, which holds
the Amount, so the admitted status written by the admission step is never
read back and a used code is reported as "not found or expired". -/

/-- The ledger row `process_entry_task` appends for transaction `T1`
(Premium plan, INR 50, 15 minutes, status "Pending"). -/
def c2row : List String :=
  ["2025-01-01 10:00:00", "Alice", "919876543210", "T1", "50", "15", "Pending",
   "online", "Premium"]

/-- C2: evaluating the code at the failing input.  After the admission step
writes "In" for `T1`, `get_entry_status` returns the amount cell "50" (not
the status), so a re-scan with no pending key and no active session lands in
the "not found or expired" branch instead of "already used". -/
theorem C2_status_roundtrip_bug :
    (update_entry_status [c2row] "T1" "In").2 = true ∧
    (update_entry_status [c2row] "T1" "In").1
      = [["2025-01-01 10:00:00", "Alice", "919876543210", "T1", "50", "15", "In",
          "online", "Premium"]] ∧
    get_entry_status (update_entry_status [c2row] "T1" "In").1 "T1" = some "50" ∧
    (verify_entry ⟨[], [], (update_entry_status [c2row] "T1" "In").1, [], []⟩
        (some claimsT1) true).1 = .notFoundOrExpired := by
  refine ⟨rfl, rfl, rfl, by decide⟩

/-! ### C8 -/

/-- C8: `verify_restore` answers 200 with the session snapshot exactly when
an active session exists for the transaction id and the supplied restore key
equals the stored one; every other case is the 403 denial, and the state is
never changed. -/
theorem C8_restore_iff (s : ServerState) (tid rk : Option String) :
    (verify_restore s tid rk).2 = s ∧
    ((verify_restore s tid rk).1.statusCode = 200 ↔
      ∃ t sess, tid = some t ∧ lookupKey s.active_sessions t = some sess ∧
        sess.restore_key = rk) ∧
    ((verify_restore s tid rk).1.statusCode ≠ 200 →
      (verify_restore s tid rk).1 = ⟨403, none, none, none⟩) ∧
    (∀ t sess, tid = some t → lookupKey s.active_sessions t = some sess →
      sess.restore_key = rk →
      (verify_restore s tid rk).1
        = ⟨200, some sess.start_time, some sess.end_time, some sess.duration⟩) := by
  refine ⟨?_, ?_, ?_, ?_⟩
  · cases tid with
    | none => rfl
    | some t =>
        cases hl : lookupKey s.active_sessions t with
        | none => simp [verify_restore, hl]
        | some sess =>
            by_cases hk : sess.restore_key = rk <;> simp [verify_restore, hl, hk]
  · cases tid with
    | none =>
        simp only [verify_restore]
        constructor
        · intro h; exact absurd h (by decide)
        · rintro ⟨t, sess, ht, -, -⟩; cases ht
    | some t =>
        cases hl : lookupKey s.active_sessions t with
        | none =>
            simp only [verify_restore, hl]
            constructor
            · intro h; exact absurd h (by decide)
            · rintro ⟨t', sess, ht', hl', -⟩
              obtain rfl := Option.some_inj.mp ht'
              rw [hl] at hl'; cases hl'
        | some sess =>
            by_cases hk : sess.restore_key = rk
            · constructor
              · intro _; exact ⟨t, sess, rfl, hl, hk⟩
              · intro _; simp [verify_restore, hl, hk]
            · simp only [verify_restore, hl, if_neg hk]
              constructor
              · intro h; exact absurd h (by decide)
              · rintro ⟨t', sess', ht', hl', hk'⟩
                obtain rfl := Option.some_inj.mp ht'
                rw [hl] at hl'
                obtain rfl := Option.some_inj.mp hl'
                exact absurd hk' hk
  · cases tid with
    | none => intro _; rfl
    | some t =>
        cases hl : lookupKey s.active_sessions t with
        | none => intro _; simp [verify_restore, hl]
        | some sess =>
            by_cases hk : sess.restore_key = rk
            · intro h
              exact absurd (by simp [verify_restore, hl, hk]) h
            · intro _; simp [verify_restore, hl, hk]
  · intro t' sess' ht' hl' hk'
    subst ht'
    simp [verify_restore, hl', hk']

theorem C8_restore_iff_witness :
    (verify_restore stateC1 (some "T1") (some "rk1")).1
      = ⟨200, some sessA.start_time, some sessA.end_time, some sessA.duration⟩ ∧
    (verify_restore stateC1 (some "T1") (some "wrong")).2 = stateC1 :=
  ⟨(C8_restore_iff stateC1 (some "T1") (some "rk1")).2.2.2 "T1" sessA rfl
      (by decide) (by decide),
   (C8_restore_iff stateC1 (some "T1") (some "wrong")).1⟩

/-! ### C3

The claim quantifies over every call to `/start_timer`, but a call that
fails the name/transaction-id validation returns the 400 rejection before
the key-removal step, leaving the pending key in place.  The amended claim
restricts the removal guarantee to calls that pass that validation. -/

/-- C3 counterexample: a `/start_timer` call with the name missing (but a
real transaction id whose pending key exists) returns 400 and leaves the
pending key for "T1" in the Pending-Key Store. -/
theorem C3_counterexample_missing_name :
    (start_timer stateC1 "919876543210" "15" none (some "T1") 0 "rk2").1.statusCode
      = 400 ∧
    lookupKey
      (start_timer stateC1 "919876543210" "15" none (some "T1") 0 "rk2").2.1.pending_keys
      "T1" = some "00000000000001" := by
  exact ⟨rfl, by decide⟩

/-- C3 (amended): the success path of `verify_entry` leaves the pending-key
store untouched (the consumed transaction's key is still present), and every
`/start_timer` call that passes the name/transaction-id validation leaves no
pending entry for that transaction id, with the updated map persisted
(assuming the snapshot was in sync before the call). -/
theorem C3_pending_key_lifecycle (s : ServerState) (c : Claims) (sendOk : Bool)
    (phone dur n t rk : String) (now : ℚ)
    (hact : lookupKey s.active_sessions c.transaction_id = none)
    (hpend : lookupKey s.pending_keys c.transaction_id = some c.secure_key)
    (hsync : s.persisted_pending = s.pending_keys) :
    (verify_entry s (some c) sendOk).1
        = .success c.name c.transaction_id c.duration c.plan c.phone ∧
    (verify_entry s (some c) sendOk).2.1.pending_keys = s.pending_keys ∧
    lookupKey (verify_entry s (some c) sendOk).2.1.pending_keys c.transaction_id
      = some c.secure_key ∧
    lookupKey (start_timer s phone dur (some n) (some t) now rk).2.1.pending_keys t
      = none ∧
    (start_timer s phone dur (some n) (some t) now rk).2.1.persisted_pending
      = (start_timer s phone dur (some n) (some t) now rk).2.1.pending_keys := by
  refine ⟨?_, ?_, ?_, ?_, ?_⟩
  · simp [verify_entry, hact, hpend]
  · simp [verify_entry, hact, hpend]
  · simp [verify_entry, hact, hpend]
  · by_cases hp : (lookupKey s.pending_keys t).isSome
    · simp [start_timer, hp, lookupKey_removeKey_self]
    · have h0 : lookupKey s.pending_keys t = none :=
        Option.not_isSome_iff_eq_none.mp hp
      simp [start_timer, hp, h0]
  · by_cases hp : (lookupKey s.pending_keys t).isSome
    · simp [start_timer, hp]
    · simp [start_timer, hp, hsync]

/-- A state with a pending key for "T1" and no active session. -/
def stateC3 : ServerState :=
  ⟨[], [("T1", "00000000000001")], [c2row], [], [("T1", "00000000000001")]⟩

theorem C3_pending_key_lifecycle_witness :
    lookupKey stateC3.active_sessions claimsT1.transaction_id = none ∧
    lookupKey stateC3.pending_keys claimsT1.transaction_id
      = some claimsT1.secure_key ∧
    stateC3.persisted_pending = stateC3.pending_keys ∧
    lookupKey
      (start_timer stateC3 "919876543210" "15" (some "Alice") (some "T1") 0
        "rk2").2.1.pending_keys "T1" = none :=
  ⟨by decide, by decide, by decide,
   (C3_pending_key_lifecycle stateC3 claimsT1 true "919876543210" "15" "Alice"
      "T1" "rk2" 0 (by decide) (by decide) (by decide)).2.2.2.1⟩

/-! ### C10 -/

/-- C10: `/start_timer` never rejects a malformed duration — whenever the
duration string does not parse as a Python `int`, a 15-minute session is
silently created, persisted and started; a 400 rejection occurs exactly when
the name or the transaction id is missing. -/
theorem C10_malformed_duration_defaults (s : ServerState) (phone dur n t rk : String)
    (now : ℚ) (hdur : parsePyInt dur = none) :
    (start_timer s phone dur (some n) (some t) now rk).1.statusCode = 200 ∧
    (start_timer s phone dur (some n) (some t) now rk).1.duration = some 15 ∧
    lookupKey (start_timer s phone dur (some n) (some t) now rk).2.1.active_sessions t
      = some ⟨n, phone, t, 15, now, now + 15 * 60, some rk⟩ ∧
    (start_timer s phone dur (some n) (some t) now rk).2.1.persisted_sessions
      = (start_timer s phone dur (some n) (some t) now rk).2.1.active_sessions ∧
    (start_timer s phone dur (some n) (some t) now rk).2.2
      = [.spawnTimer phone 15 t false none] ∧
    (∀ nm tid, (start_timer s phone dur nm tid now rk).1.statusCode = 400 ↔
      (nm = none ∨ tid = none)) := by
  refine ⟨?_, ?_, ?_, ?_, ?_, ?_⟩
  · simp [start_timer]
  · simp [start_timer, hdur]
  · by_cases hp : (lookupKey s.pending_keys t).isSome <;>
      simp [start_timer, hdur, hp, lookupKey_insertKey_self]
  · by_cases hp : (lookupKey s.pending_keys t).isSome <;> simp [start_timer, hp]
  · simp [start_timer, hdur]
  · intro nm tid
    match nm, tid with
    | none, _ => simp [start_timer]
    | some a, none => simp [start_timer]
    | some a, some b => simp [start_timer]

theorem C10_malformed_duration_defaults_witness :
    parsePyInt "abc" = none ∧
    (start_timer stateC3 "919876543210" "abc" (some "Alice") (some "T1") 0
        "rk2").1.statusCode = 200 :=
  ⟨by decide,
   (C10_malformed_duration_defaults stateC3 "919876543210" "abc" "Alice" "T1"
      "rk2" 0 (by decide)).1⟩

/-! ### C4 -/

/-- C4: the session-timer schedule.  Fresh timers sleep `(D−W)·60` seconds,
send the warning, then sleep the `W·60`-second buffer, so the warning lands
at session time `(D−W)` minutes and the end notice at `D` minutes.  A resume
with elapsed `E = D·60 − r < (D−W)·60` sleeps `(D−W)·60 − E` to the warning
(total session time `(D−W)·60`) and then the full buffer (total `D·60`,
i.e. `r` seconds after the resume).  A resume past the warning offset sleeps
exactly the remaining `r` seconds and sends only the end notice. -/
theorem C4_timer_schedule (s : ServerState) (phone tid : String) (D W : Int)
    (startOk warnOk endOk : Bool) (hW : W < D) :
    (session_timer_task s phone D tid false none W startOk warnOk endOk).1
      = [.sendMessage phone (startMsg D) startOk,
         .sleep (((D : ℚ) - W) * 60),
         .sendMessage phone (warnMsg W) warnOk,
         .sleep ((W : ℚ) * 60),
         .sendMessage phone (endMsg D) endOk] ++ removalEvents s tid ∧
    (∀ r : ℚ, (D : ℚ) * 60 - r < ((D : ℚ) - W) * 60 →
      (session_timer_task s phone D tid true (some r) W startOk warnOk endOk).1
        = [.sleep (((D : ℚ) - W) * 60 - ((D : ℚ) * 60 - r)),
           .sendMessage phone (warnMsg W) warnOk,
           .sleep ((W : ℚ) * 60),
           .sendMessage phone (endMsg D) endOk] ++ removalEvents s tid) ∧
    (∀ r : ℚ, 0 < r → ((D : ℚ) - W) * 60 ≤ (D : ℚ) * 60 - r →
      (session_timer_task s phone D tid true (some r) W startOk warnOk endOk).1
        = [.sleep r, .sendMessage phone (endMsg D) endOk] ++ removalEvents s tid) := by
  have hWD : (W : ℚ) < (D : ℚ) := by exact_mod_cast hW
  have hbuf : (D : ℚ) * 60 - ((D : ℚ) - W) * 60 = (W : ℚ) * 60 := by ring
  refine ⟨?_, ?_, ?_⟩
  · have h1 : (0 : ℚ) < ((D : ℚ) - W) * 60 := by linarith
    have hmid : timerSleepEvents phone D W false none warnOk
        = [.sleep (((D : ℚ) - W) * 60),
           .sendMessage phone (warnMsg W) warnOk,
           .sleep ((W : ℚ) * 60)] := by
      show (if 0 < ((D : ℚ) - W) * 60 then
          [Effect.sleep (((D : ℚ) - W) * 60),
           Effect.sendMessage phone (warnMsg W) warnOk,
           Effect.sleep ((D : ℚ) * 60 - ((D : ℚ) - W) * 60)]
        else if 0 < (D : ℚ) * 60 then [Effect.sleep ((D : ℚ) * 60)] else []) = _
      rw [if_pos h1, hbuf]
    show timerStartEvents phone D false startOk
        ++ timerSleepEvents phone D W false none warnOk
        ++ [.sendMessage phone (endMsg D) endOk] ++ removalEvents s tid = _
    rw [hmid]
    rfl
  · intro r hr
    have h1 : (0 : ℚ) < ((D : ℚ) - W) * 60 - ((D : ℚ) * 60 - r) := by linarith
    have hmid : timerSleepEvents phone D W true (some r) warnOk
        = [.sleep (((D : ℚ) - W) * 60 - ((D : ℚ) * 60 - r)),
           .sendMessage phone (warnMsg W) warnOk,
           .sleep ((W : ℚ) * 60)] := by
      show (if 0 < ((D : ℚ) - W) * 60 - ((D : ℚ) * 60 - r) then
          [Effect.sleep (((D : ℚ) - W) * 60 - ((D : ℚ) * 60 - r)),
           Effect.sendMessage phone (warnMsg W) warnOk,
           Effect.sleep ((D : ℚ) * 60 - ((D : ℚ) - W) * 60)]
        else if 0 < r then [Effect.sleep r] else []) = _
      rw [if_pos h1, hbuf]
    show timerStartEvents phone D true startOk
        ++ timerSleepEvents phone D W true (some r) warnOk
        ++ [.sendMessage phone (endMsg D) endOk] ++ removalEvents s tid = _
    rw [hmid]
    rfl
  · intro r hr0 hr
    have h1 : ¬(0 : ℚ) < ((D : ℚ) - W) * 60 - ((D : ℚ) * 60 - r) := by linarith
    have hmid : timerSleepEvents phone D W true (some r) warnOk = [.sleep r] := by
      show (if 0 < ((D : ℚ) - W) * 60 - ((D : ℚ) * 60 - r) then
          [Effect.sleep (((D : ℚ) - W) * 60 - ((D : ℚ) * 60 - r)),
           Effect.sendMessage phone (warnMsg W) warnOk,
           Effect.sleep ((D : ℚ) * 60 - ((D : ℚ) - W) * 60)]
        else if 0 < r then [Effect.sleep r] else []) = _
      rw [if_neg h1, if_pos hr0]
    show timerStartEvents phone D true startOk
        ++ timerSleepEvents phone D W true (some r) warnOk
        ++ [.sendMessage phone (endMsg D) endOk] ++ removalEvents s tid = _
    rw [hmid]
    rfl

theorem C4_timer_schedule_witness :
    (5 : Int) < 15 ∧
    (15 : ℚ) * 60 - 700 < ((15 : ℚ) - 5) * 60 ∧
    (session_timer_task stateC3 "919876543210" 15 "T1" true (some 700) 5 true
        true true).1
      = [.sleep (((15 : ℚ) - 5) * 60 - ((15 : ℚ) * 60 - 700)),
         .sendMessage "919876543210" (warnMsg 5) true,
         .sleep ((5 : ℚ) * 60),
         .sendMessage "919876543210" (endMsg 15) true]
          ++ removalEvents stateC3 "T1" :=
  ⟨by norm_num, by norm_num,
   (C4_timer_schedule stateC3 "919876543210" "T1" 15 5 true true true
      (by norm_num)).2.1 700 (by norm_num)⟩

/-! ### C6 -/

/-- C6: the cleanup tail of the session timer.  After the timer runs, the
transaction id is absent from the Active-Session Store; when the entry was
present the removal is performed and persisted, and when it was already
absent the cleanup is a no-op (so removal happens at most once across
duplicate timers).  The end notice precedes the removal in the trace, and
the delivery outcome of the end notice does not affect the resulting state
(`send_message` reports failure as a return value, never an exception, so a
failed notice neither blocks nor reverses the removal). -/
theorem C6_timer_cleanup (s : ServerState) (phone tid : String) (D W : Int)
    (is_resume : Bool) (rs : Option ℚ) (startOk warnOk endOk : Bool) :
    lookupKey
      (session_timer_task s phone D tid is_resume rs W startOk warnOk
        endOk).2.active_sessions tid = none ∧
    (∀ sess, lookupKey s.active_sessions tid = some sess →
      (session_timer_task s phone D tid is_resume rs W startOk warnOk
          endOk).2.active_sessions = removeKey s.active_sessions tid ∧
      (session_timer_task s phone D tid is_resume rs W startOk warnOk
          endOk).2.persisted_sessions = removeKey s.active_sessions tid ∧
      removalEvents s tid = [.removedSession tid]) ∧
    (lookupKey s.active_sessions tid = none →
      (session_timer_task s phone D tid is_resume rs W startOk warnOk endOk).2 = s ∧
      removalEvents s tid = []) ∧
    (∃ pre,
      (session_timer_task s phone D tid is_resume rs W startOk warnOk endOk).1
        = pre ++ [.sendMessage phone (endMsg D) endOk] ++ removalEvents s tid) ∧
    (session_timer_task s phone D tid is_resume rs W startOk warnOk false).2
      = (session_timer_task s phone D tid is_resume rs W startOk warnOk true).2 := by
  have hst : ∀ a b c : Bool,
      (session_timer_task s phone D tid is_resume rs W a b c).2
        = removalState s tid := fun _ _ _ => rfl
  refine ⟨?_, ?_, ?_, ?_, ?_⟩
  · rw [hst]
    by_cases hp : (lookupKey s.active_sessions tid).isSome
    · simp [removalState, hp, lookupKey_removeKey_self]
    · have h0 : lookupKey s.active_sessions tid = none :=
        Option.not_isSome_iff_eq_none.mp hp
      simp [removalState, hp, h0]
  · intro sess hsess
    have hp : (lookupKey s.active_sessions tid).isSome = true := by
      rw [hsess]; rfl
    refine ⟨?_, ?_, ?_⟩ <;>
      simp [hst, removalState, removalEvents, hp]
  · intro h0
    have hp : ¬(lookupKey s.active_sessions tid).isSome := by
      rw [h0]; intro h; cases h
    refine ⟨?_, ?_⟩ <;> simp [hst, removalState, removalEvents, hp]
  · exact ⟨timerStartEvents phone D is_resume startOk
      ++ timerSleepEvents phone D W is_resume rs warnOk, rfl⟩
  · rw [hst, hst]

theorem C6_timer_cleanup_witness :
    lookupKey stateC1.active_sessions "T1" = some sessA ∧
    (session_timer_task stateC1 "919876543210" 15 "T1" false none 5 true true
        false).2.active_sessions = removeKey stateC1.active_sessions "T1" :=
  ⟨by decide,
   ((C6_timer_cleanup stateC1 "919876543210" "T1" 15 5 false none true true
       false).2.1 sessA (by decide)).1⟩

/-! ### C5 -/

/-- Recognize the spawn of a timer for a given transaction id. -/
def isSpawnFor (tid : String) : Effect → Bool
  | .spawnTimer _ _ t _ _ => t = tid
  | _ => false

/-- Recognize an outbound notification. -/
def isNotification : Effect → Bool
  | .sendMessage _ _ _ => true
  | _ => false

theorem lookupKey_mem {α : Type} {l : List (String × α)} {k : String} {v : α}
    (h : lookupKey l k = some v) : (k, v) ∈ l := by
  induction l with
  | nil => cases h
  | cons p rest ih =>
      simp only [lookupKey] at h
      by_cases hp : p.1 = k
      · rw [if_pos hp] at h
        obtain rfl := Option.some_inj.mp h
        subst hp
        exact List.mem_cons_self _ _
      · rw [if_neg hp] at h
        exact List.mem_cons_of_mem _ (ih h)

theorem mem_lookupKey_of_nodup {α : Type} {l : List (String × α)} {k : String}
    {v : α} (hnd : (l.map Prod.fst).Nodup) (hmem : (k, v) ∈ l) :
    lookupKey l k = some v := by
  induction l with
  | nil => cases hmem
  | cons p rest ih =>
      rw [List.map_cons, List.nodup_cons] at hnd
      rcases List.mem_cons.mp hmem with heq | hmem'
      · subst heq
        simp [lookupKey]
      · have hk : ¬p.1 = k := by
          intro hk
          apply hnd.1
          rw [hk]
          exact List.mem_map.mpr ⟨(k, v), hmem', rfl⟩
        simp only [lookupKey, if_neg hk]
        exact ih hnd.2 hmem'

theorem keyUnique_of_nodup {α : Type} {l : List (String × α)} {k : String}
    {a b : α} (hnd : (l.map Prod.fst).Nodup) (ha : (k, a) ∈ l)
    (hb : (k, b) ∈ l) : a = b := by
  have h1 := mem_lookupKey_of_nodup hnd ha
  have h2 := mem_lookupKey_of_nodup hnd hb
  rw [h1] at h2
  exact Option.some_inj.mp h2

theorem length_filter_lt_of_mem_not {α : Type} {l : List α} {q : α → Bool}
    {a : α} (ha : a ∈ l) (hq : q a = false) :
    (l.filter q).length < l.length := by
  induction l with
  | nil => cases ha
  | cons b rest ih =>
      rcases List.mem_cons.mp ha with rfl | ha'
      · rw [List.filter_cons, hq]
        simp only [Bool.false_eq_true, if_false, List.length_cons]
        exact Nat.lt_succ_of_le (List.length_filter_le _ _)
      · rw [List.filter_cons]
        by_cases hb : q b
        · rw [if_pos hb]
          simpa using Nat.succ_lt_succ (ih ha')
        · simp only [hb, Bool.false_eq_true, if_false, List.length_cons]
          exact Nat.lt_succ_of_lt (ih ha')

theorem startup_resume_cons (p : String × Session)
    (rest : List (String × Session)) (now : ℚ) :
    startup_resume (p :: rest) now =
      if now < p.2.end_time then
        .spawnTimer p.2.phone p.2.duration p.1 true (some (p.2.end_time - now))
          :: startup_resume rest now
      else startup_resume rest now := by
  by_cases h : now < p.2.end_time <;>
    simp [startup_resume, List.filterMap_cons, h]

theorem startup_resume_no_notification (kept : List (String × Session))
    (now : ℚ) : (startup_resume kept now).filter isNotification = [] := by
  induction kept with
  | nil => rfl
  | cons p rest ih =>
      rw [startup_resume_cons]
      by_cases h : now < p.2.end_time
      · rw [if_pos h, List.filter_cons]
        simpa [isNotification] using ih
      · rw [if_neg h]; exact ih

theorem startup_resume_filter_not_mem (kept : List (String × Session))
    (now : ℚ) (tid : String) (h : ∀ v, ¬(tid, v) ∈ kept) :
    (startup_resume kept now).filter (isSpawnFor tid) = [] := by
  induction kept with
  | nil => rfl
  | cons p rest ih =>
      have hp : ¬p.1 = tid := by
        intro hk
        have hpe : (tid, p.2) = p := by rw [← hk]
        exact h p.2 (hpe ▸ List.mem_cons_self p rest)
      have hrest : ∀ v, ¬(tid, v) ∈ rest :=
        fun v hv => h v (List.mem_cons_of_mem _ hv)
      rw [startup_resume_cons]
      by_cases hnow : now < p.2.end_time
      · rw [if_pos hnow, List.filter_cons]
        simpa [isSpawnFor, hp] using ih hrest
      · rw [if_neg hnow]; exact ih hrest

theorem startup_resume_filter_single (kept : List (String × Session))
    (now : ℚ) (tid : String) (sess : Session)
    (hnd : (kept.map Prod.fst).Nodup) (hmem : (tid, sess) ∈ kept)
    (hfut : now < sess.end_time) :
    (startup_resume kept now).filter (isSpawnFor tid)
      = [.spawnTimer sess.phone sess.duration tid true
          (some (sess.end_time - now))] := by
  induction kept with
  | nil => cases hmem
  | cons p rest ih =>
      rw [List.map_cons, List.nodup_cons] at hnd
      rcases List.mem_cons.mp hmem with heq | hmem'
      · subst heq
        rw [startup_resume_cons, if_pos hfut, List.filter_cons]
        have hrest : ∀ v, ¬(tid, v) ∈ rest := by
          intro v hv
          exact hnd.1 (List.mem_map.mpr ⟨(tid, v), hv, rfl⟩)
        simpa [isSpawnFor] using startup_resume_filter_not_mem rest now tid hrest
      · have hp : ¬p.1 = tid := by
          intro hk
          apply hnd.1
          rw [hk]
          exact List.mem_map.mpr ⟨(tid, sess), hmem', rfl⟩
        rw [startup_resume_cons]
        by_cases hnow : now < p.2.end_time
        · rw [if_pos hnow, List.filter_cons]
          simpa [isSpawnFor, hp] using ih hnd.2 hmem'
        · rw [if_neg hnow]; exact ih hnd.2 hmem'

/-- C5: restart recovery at a single instant `now` (the code samples
`datetime.now()` once for the cleanup and again, negligibly later, for the
restoration loop; both are the claim's "current time").  The startup path
emits no notification; every loaded session whose `end_time ≤ now` is
removed from the store, the store is re-persisted, and no timer is spawned
for it; every loaded session whose `end_time > now` survives and gets
exactly one resumed timer, with `resume_seconds = end_time − now`. -/
theorem C5_startup_recovery (sessions : List (String × Session)) (now : ℚ)
    (tid : String) (sess : Session)
    (hnd : (sessions.map Prod.fst).Nodup) (hmem : (tid, sess) ∈ sessions) :
    ((startup_event sessions now now).2.2.filter isNotification = []) ∧
    (sess.end_time ≤ now →
      lookupKey (startup_event sessions now now).1 tid = none ∧
      (startup_event sessions now now).2.1 = true ∧
      (startup_event sessions now now).2.2.filter (isSpawnFor tid) = []) ∧
    (now < sess.end_time →
      lookupKey (startup_event sessions now now).1 tid = some sess ∧
      (startup_event sessions now now).2.2.filter (isSpawnFor tid)
        = [.spawnTimer sess.phone sess.duration tid true
            (some (sess.end_time - now))]) := by
  have hkept : (startup_event sessions now now).1
      = sessions.filter (fun p => now < p.2.end_time) := rfl
  have hspawn : (startup_event sessions now now).2.2
      = startup_resume (sessions.filter (fun p => now < p.2.end_time)) now := rfl
  have hndk : ((sessions.filter (fun p => now < p.2.end_time)).map Prod.fst).Nodup :=
    List.Nodup.sublist ((List.filter_sublist sessions).map Prod.fst) hnd
  refine ⟨?_, ?_, ?_⟩
  · rw [hspawn]
    exact startup_resume_no_notification _ now
  · intro hend
    have hnotin : ∀ v, ¬(tid, v) ∈ sessions.filter (fun p => now < p.2.end_time) := by
      intro v hv
      have hv' := List.mem_filter.mp hv
      have hveq : v = sess := keyUnique_of_nodup hnd hv'.1 hmem
      subst hveq
      have := of_decide_eq_true hv'.2
      exact absurd hend (not_le.mpr this)
    refine ⟨?_, ?_, ?_⟩
    · rw [hkept]
      cases hl : lookupKey (sessions.filter (fun p => now < p.2.end_time)) tid with
      | none => rfl
      | some v => exact absurd (lookupKey_mem hl) (hnotin v)
    · show decide _ = true
      apply decide_eq_true
      exact length_filter_lt_of_mem_not hmem
        (decide_eq_false (not_lt.mpr hend))
    · rw [hspawn]
      exact startup_resume_filter_not_mem _ now tid hnotin
  · intro hfut
    have hmemk : (tid, sess) ∈ sessions.filter (fun p => now < p.2.end_time) :=
      List.mem_filter.mpr ⟨hmem, decide_eq_true hfut⟩
    refine ⟨?_, ?_⟩
    · rw [hkept]
      exact mem_lookupKey_of_nodup hndk hmemk
    · rw [hspawn]
      exact startup_resume_filter_single _ now tid sess hndk hmemk hfut

/-- A second session, still in the future at the witness instant. -/
def sessB : Session := ⟨"Bob", "919876500000", "T2", 30, 200, 2000, some "rk9"⟩

theorem C5_startup_recovery_witness :
    ([("T1", sessA), ("T2", sessB)].map Prod.fst).Nodup ∧
    ("T1", sessA) ∈ [("T1", sessA), ("T2", sessB)] ∧
    sessA.end_time ≤ (1000 : ℚ) ∧
    ("T2", sessB) ∈ [("T1", sessA), ("T2", sessB)] ∧
    (1000 : ℚ) < sessB.end_time ∧
    lookupKey (startup_event [("T1", sessA), ("T2", sessB)] 1000 1000).1 "T1"
      = none ∧
    (startup_event [("T1", sessA), ("T2", sessB)] 1000 1000).2.1 = true ∧
    (startup_event [("T1", sessA), ("T2", sessB)] 1000 1000).2.2.filter
      (isSpawnFor "T2")
      = [.spawnTimer sessB.phone sessB.duration "T2" true
          (some (sessB.end_time - 1000))] := by
  refine ⟨by decide, by decide, by norm_num [sessA], by decide,
    by norm_num [sessB], ?_, ?_, ?_⟩
  · exact ((C5_startup_recovery [("T1", sessA), ("T2", sessB)] 1000 "T1" sessA
      (by decide) (by decide)).2.1 (by norm_num [sessA])).1
  · exact ((C5_startup_recovery [("T1", sessA), ("T2", sessB)] 1000 "T1" sessA
      (by decide) (by decide)).2.1 (by norm_num [sessA])).2.1
  · exact ((C5_startup_recovery [("T1", sessA), ("T2", sessB)] 1000 "T2" sessB
      (by decide) (by decide)).2.2 (by norm_num [sessB])).2

/-! ### C7 -/

/-- C7: the token codec round-trips — decrypting a minted token yields
exactly the claims it was minted with — and every decryption either returns
a complete claims record or fails with the single error kind
"Invalid token"; there is no partial or different decode.  The hypotheses
are the round-trip contracts of the three external layers (json, Fernet,
base64), instantiated at the strings this token actually passes through. -/
theorem C7_codec_roundtrip (c : Codec) (d : Claims)
    (hs : c.deserialize (c.serialize d) = some d)
    (hf : c.fernetDec (c.fernetEnc (c.serialize d)) = some (c.serialize d))
    (hb : c.b64decode (c.b64encode (c.fernetEnc (c.serialize d)))
        = some (c.fernetEnc (c.serialize d))) :
    c.decrypt (c.encrypt d) = .ok d ∧
    (∀ t, (∃ d', c.decrypt t = .ok d') ∨ c.decrypt t = .error "Invalid token") := by
  constructor
  · simp [Codec.encrypt, Codec.decrypt, hb, hf, hs]
  · intro t
    rcases hb1 : c.b64decode t with _ | eb
    · exact .inr (by simp [Codec.decrypt, hb1])
    · rcases hf1 : c.fernetDec eb with _ | db
      · exact .inr (by simp [Codec.decrypt, hb1, hf1])
      · rcases hs1 : c.deserialize db with _ | d'
        · exact .inr (by simp [Codec.decrypt, hb1, hf1, hs1])
        · exact .inl ⟨d', by simp [Codec.decrypt, hb1, hf1, hs1]⟩

/-- A degenerate codec instantiating the library-layer contracts at one
concrete claims record: identity cipher and transport, constant serializer. -/
def trivialCodec : Codec :=
  ⟨fun _ => "x", fun _ => some claimsT1, id, some, id, some⟩

theorem C7_codec_roundtrip_witness :
    trivialCodec.deserialize (trivialCodec.serialize claimsT1) = some claimsT1 ∧
    trivialCodec.fernetDec (trivialCodec.fernetEnc (trivialCodec.serialize
      claimsT1)) = some (trivialCodec.serialize claimsT1) ∧
    trivialCodec.b64decode (trivialCodec.b64encode (trivialCodec.fernetEnc
      (trivialCodec.serialize claimsT1)))
      = some (trivialCodec.fernetEnc (trivialCodec.serialize claimsT1)) ∧
    trivialCodec.decrypt (trivialCodec.encrypt claimsT1) = .ok claimsT1 :=
  ⟨rfl, rfl, rfl, (C7_codec_roundtrip trivialCodec claimsT1 rfl rfl rfl).1⟩

/-! ### C9 -/

/-- C9: one iteration of the hourly reporting loop.  With
`last_hourly_report` unset, it persists the current time and sleeps a full
3600-second interval before emitting its first report.  With it set to `t`,
it sleeps until exactly `t + 3600`, emits, and persists the new timestamp.
On an internal failure — a corrupt persisted timestamp or a failing
aggregation — it logs and backs off a fixed 60 seconds; the step always
yields a successor state, so no failure terminates the task. -/
theorem C9_hourly_reporting (now now2 t : ℚ) :
    ((hourly_step .unset now now2 true).1
      = [.persistLastReport now, .sleep 3600, .emitHourlyReport,
         .persistLastReport now2, .sleep 1] ∧
     (hourly_step .unset now now2 true).2 = .at now2) ∧
    (0 < t + 3600 - now →
      (hourly_step (.at t) now now2 true).1
        = [.sleep (t + 3600 - now), .emitHourlyReport, .persistLastReport now2,
           .sleep 1] ∧
      (hourly_step (.at t) now now2 true).2 = .at now2) ∧
    ((hourly_step .unset now now2 false).1
      = [.persistLastReport now, .sleep 3600, .logError, .sleep 60]) ∧
    (0 < t + 3600 - now →
      (hourly_step (.at t) now now2 false).1
        = [.sleep (t + 3600 - now), .logError, .sleep 60]) ∧
    (∀ ok, (hourly_step .corrupt now now2 ok).1 = [.logError, .sleep 60]) ∧
    (∀ last ok, ∃ st, hourly_step last now now2 ok
        = ((hourly_step last now now2 ok).1, st)) := by
  refine ⟨⟨rfl, rfl⟩, ?_, rfl, ?_, fun ok => rfl, fun last ok => ⟨_, rfl⟩⟩
  · intro h
    constructor
    · show (if 0 < t + 3600 - now then [Effect.sleep (t + 3600 - now)] else [])
        ++ [.emitHourlyReport, .persistLastReport now2, .sleep 1] = _
      rw [if_pos h]
      rfl
    · rfl
  · intro h
    show (if 0 < t + 3600 - now then [Effect.sleep (t + 3600 - now)] else [])
      ++ [.logError, .sleep 60] = _
    rw [if_pos h]
    rfl

theorem C9_hourly_reporting_witness :
    (0 : ℚ) < 0 + 3600 - 100 ∧
    (hourly_step (.at 0) 100 3700 true).1
      = [.sleep (0 + 3600 - 100), .emitHourlyReport, .persistLastReport 3700,
         .sleep 1] :=
  ⟨by norm_num, ((C9_hourly_reporting 100 3700 0).2.1 (by norm_num)).1⟩

end Billing
